import Mathlib

/-!
Verification of the fb303 thread-local statistics core
(`fb303/ThreadLocalStats.h`) against its specification.

The model is a shallow embedding.  Stat objects become Lean structures
holding their local accumulators; the global `ServiceData` store (an
external collaborator, spec section 6) is a record of named counters,
recorded time-series samples and histogram bucket counts; flushes are
explicit state-passing functions.  The per-stat guards and the registry
lock serialize accesses in the C++ code; the model works with the
resulting sequential interleavings, so guards are implicit.

Functions whose bodies are inline in `ThreadLocalStats.h`
(`incrementValue`, `addValue`, `addValueAggregated`, `count`, `sum`,
histogram `addValue`/`addRepeatedValue`, `getContainer`,
`getHistogramMap`) are translated from the source.  Functions that the
header only declares (the `aggregate` bodies, `postInit`, `preDestroy`,
`clearContainer`, `checkContainer`, the move protocol) are modelled from
the spec, as marked in their doc comments.
-/

namespace FB303

/-- Pointwise update of a string-keyed table, used for the global store's
named counters. -/
def upd (f : String → Int) (k : String) (v : Int) : String → Int :=
  fun k2 => if k2 = k then v else f k2

/-- The global statistics store at the boundary described in spec section 6:
named persistent counters, the list of recorded time-series samples
(name, sum, count, timestamp), most recent first, and per-name histogram
bucket counts. -/
structure ServiceData where
  counters : String → Int
  samples : List (String × Int × Int × Int)
  histBuckets : String → Nat → Int

/-- Boundary operation `addToCounter(name, delta)`: add a signed delta to a
named persistent counter. -/
def ServiceData.addToCounter (sd : ServiceData) (name : String) (delta : Int) :
    ServiceData :=
  { sd with counters := upd sd.counters name (sd.counters name + delta) }

/-- Boundary operation `recordTimeSeriesSample(name, sum, count, timestamp)`:
record one aggregated sample into a named rolling series. -/
def ServiceData.recordTimeSeriesSample (sd : ServiceData) (name : String)
    (sum count ts : Int) : ServiceData :=
  { sd with samples := (name, sum, count, ts) :: sd.samples }

/-- Local state of `TLCounterT`: `value_` is the current thread-local
counter delta (`fb303::CounterType` is a signed integer). -/
structure TLCounter where
  value_ : Int

/-- From the source (`TLCounterT::incrementValue`): add `amount` to the
local delta; the amount parameter defaults to 1 and may be negative. -/
def TLCounter.incrementValue (c : TLCounter) (amount : Int := 1) : TLCounter :=
  { value_ := c.value_ + amount }

/-- Modelled from the spec: the body of `TLCounterT::aggregate` is not under
src/ (declared only).  Per spec section 4.4, a flush atomically
read-and-resets the local delta, then adds that delta to the global
counter of the same name. -/
def TLCounter.aggregate (c : TLCounter) (name : String) (sd : ServiceData) :
    TLCounter × ServiceData :=
  (⟨0⟩, sd.addToCounter name c.value_)

/-- Fold a sequence of `incrementValue` calls over a counter. -/
def TLCounter.applyIncrements (c : TLCounter) (amounts : List Int) : TLCounter :=
  amounts.foldl (fun acc a => acc.incrementValue a) c

/-- Local state of `TLTimeseriesT`: running `sum_` and `count_`
(both `int64_t`, zero-initialized at construction). -/
structure TLTimeseries where
  sum_ : Int
  count_ : Int

/-- From the source (`TLTimeseriesT::addValue`): under the per-stat guard,
add the value to the local sum and 1 to the local count. -/
def TLTimeseries.addValue (t : TLTimeseries) (value : Int) : TLTimeseries :=
  { sum_ := t.sum_ + value, count_ := t.count_ + 1 }

/-- From the source (`TLTimeseriesT::addValueAggregated`): under the
per-stat guard, add the value to the local sum and `nsamples` to the local
count. -/
def TLTimeseries.addValueAggregated (t : TLTimeseries) (value nsamples : Int) :
    TLTimeseries :=
  { sum_ := t.sum_ + value, count_ := t.count_ + nsamples }

/-- From the source (`TLTimeseriesT::count`): read the local count under the
per-stat guard, without modifying it. -/
def TLTimeseries.count (t : TLTimeseries) : Int := t.count_

/-- From the source (`TLTimeseriesT::sum`): read the local sum under the
per-stat guard, without modifying it. -/
def TLTimeseries.sum (t : TLTimeseries) : Int := t.sum_

/-- Modelled from the spec: the body of `TLTimeseriesT::aggregate` is not
under src/ (declared only).  Per spec section 4.5, a flush read-and-resets
(sum, count) and records one sample of that pair at the flush timestamp
into the global rolling series. -/
def TLTimeseries.aggregate (t : TLTimeseries) (name : String) (now : Int)
    (sd : ServiceData) : TLTimeseries × ServiceData :=
  (⟨0, 0⟩, sd.recordTimeSeriesSample name t.sum_ t.count_ now)

/-- One local update to a time-series stat: either `addValue v` or
`addValueAggregated v n`. -/
inductive TSOp
  | add (value : Int)
  | addAgg (value nsamples : Int)

/-- Apply one time-series update. -/
def TLTimeseries.applyOp (t : TLTimeseries) : TSOp → TLTimeseries
  | .add v => t.addValue v
  | .addAgg v n => t.addValueAggregated v n

/-- Apply a sequence of time-series updates, in order. -/
def TLTimeseries.applyOps (t : TLTimeseries) (ops : List TSOp) : TLTimeseries :=
  ops.foldl TLTimeseries.applyOp t

/-- Contribution of one update to the local sum: the added value. -/
def TSOp.sumContrib : TSOp → Int
  | .add v => v
  | .addAgg v _ => v

/-- Contribution of one update to the local count: 1 for `addValue`,
the explicit sample count for `addValueAggregated`. -/
def TSOp.countContrib : TSOp → Int
  | .add _ => 1
  | .addAgg _ n => n

theorem TLCounter.applyIncrements_value (amounts : List Int) :
    ∀ c : TLCounter, (c.applyIncrements amounts).value_ = c.value_ + amounts.sum := by
  induction amounts with
  | nil => intro c; simp [TLCounter.applyIncrements]
  | cons a rest ih =>
    intro c
    simp only [TLCounter.applyIncrements, List.foldl_cons, List.sum_cons]
    have h := ih (c.incrementValue a)
    simp only [TLCounter.applyIncrements] at h
    rw [h]
    simp [TLCounter.incrementValue]
    ring

theorem TLTimeseries.applyOps_fields (ops : List TSOp) :
    ∀ t : TLTimeseries,
      (t.applyOps ops).sum_ = t.sum_ + (ops.map TSOp.sumContrib).sum ∧
      (t.applyOps ops).count_ = t.count_ + (ops.map TSOp.countContrib).sum := by
  induction ops with
  | nil => intro t; simp [TLTimeseries.applyOps]
  | cons op rest ih =>
    intro t
    simp only [TLTimeseries.applyOps, List.foldl_cons, List.map_cons, List.sum_cons]
    have h := ih (t.applyOp op)
    simp only [TLTimeseries.applyOps] at h
    refine ⟨?_, ?_⟩
    · rw [h.1]
      cases op <;>
        simp [TLTimeseries.applyOp, TLTimeseries.addValue,
          TLTimeseries.addValueAggregated, TSOp.sumContrib] <;> ring
    · rw [h.2]
      cases op <;>
        simp [TLTimeseries.applyOp, TLTimeseries.addValue,
          TLTimeseries.addValueAggregated, TSOp.countContrib] <;> ring

/-- Local state of `TLHistogramT`: the `simpleHistogram_` member is a
`folly::Histogram` (an external collaborator), modelled from the spec as a
fixed-bucket-width histogram over [min, max): bucket 0 holds values below
min, the last bucket holds values at or above max, and inner bucket 1+k
holds [min + k*bucketWidth, min + (k+1)*bucketWidth).  `dirty_` is the
flag from the source, initialized false. -/
structure TLHistogram where
  bucketWidth : Int
  min_ : Int
  max_ : Int
  buckets : Nat → Int
  dirty_ : Bool

/-- Pointwise update of a Nat-keyed integer table (histogram buckets, and
per-object local deltas in the container worlds below). -/
def updNat (f : Nat → Int) (k : Nat) (v : Int) : Nat → Int :=
  fun k2 => if k2 = k then v else f k2

/-- Modelled from the spec: the bucket a value falls into (the bucket
arithmetic lives in the external `folly::Histogram`; spec section 4.6 fixes
the fixed-width-over-[min,max) shape). -/
def TLHistogram.getBucketIdx (h : TLHistogram) (value : Int) : Nat :=
  if value < h.min_ then 0
  else if h.max_ ≤ value then ((h.max_ - h.min_) / h.bucketWidth).toNat + 1
  else ((value - h.min_) / h.bucketWidth).toNat + 1

/-- From the source (`TLHistogramT::addValue`): under the per-stat guard,
place the value into its bucket of `simpleHistogram_` and set the dirty
flag. -/
def TLHistogram.addValue (h : TLHistogram) (value : Int) : TLHistogram :=
  { h with
    buckets := updNat h.buckets (h.getBucketIdx value)
      (h.buckets (h.getBucketIdx value) + 1),
    dirty_ := true }

/-- From the source (`TLHistogramT::addRepeatedValue`): under the per-stat
guard, place `nsamples` copies of the value into its bucket and set the
dirty flag. -/
def TLHistogram.addRepeatedValue (h : TLHistogram) (value nsamples : Int) :
    TLHistogram :=
  { h with
    buckets := updNat h.buckets (h.getBucketIdx value)
      (h.buckets (h.getBucketIdx value) + nsamples),
    dirty_ := true }

/-- Modelled from the spec: the body of `TLHistogramT::aggregate` is not
under src/ (declared only).  Per spec section 4.6, a flush returns
immediately when the dirty flag is clear; otherwise it merges every local
bucket count into the corresponding bucket of the global histogram of the
same name, clears every local bucket, and clears the dirty flag. -/
def TLHistogram.aggregate (h : TLHistogram) (name : String) (sd : ServiceData) :
    TLHistogram × ServiceData :=
  if h.dirty_ then
    ({ h with buckets := fun _ => 0, dirty_ := false },
      { sd with
        histBuckets := fun n i =>
          if n = name then sd.histBuckets n i + h.buckets i
          else sd.histBuckets n i })
  else (h, sd)

/-- An empty global store, used to instantiate witnesses. -/
def sd0 : ServiceData :=
  { counters := fun _ => 0, samples := [], histBuckets := fun _ _ => 0 }

/-- Claim C2: for every sequence of `incrementValue` calls with amounts
a1..an made between two flushes (so starting from the zero delta a flush
leaves behind), the flush increases the global counter of the stat's name
by exactly the sum of the amounts, and the local delta is 0 immediately
after the flush. -/
theorem claim_C2_counter_conservation (c : TLCounter) (amounts : List Int)
    (name : String) (sd : ServiceData) (hfresh : c.value_ = 0) :
    ((c.applyIncrements amounts).aggregate name sd).2.counters name
        = sd.counters name + amounts.sum ∧
    ((c.applyIncrements amounts).aggregate name sd).1.value_ = 0 := by
  refine ⟨?_, rfl⟩
  simp [TLCounter.aggregate, ServiceData.addToCounter, upd,
    TLCounter.applyIncrements_value, hfresh]

/-- Witness for C2 at a concrete increment sequence. -/
theorem claim_C2_counter_conservation_witness :
    (⟨0⟩ : TLCounter).value_ = 0 ∧
    ((((⟨0⟩ : TLCounter).applyIncrements [3, -2, 5]).aggregate "c" sd0).2.counters "c"
        = sd0.counters "c" + ([3, -2, 5] : List Int).sum ∧
      (((⟨0⟩ : TLCounter).applyIncrements [3, -2, 5]).aggregate "c" sd0).1.value_ = 0) :=
  ⟨rfl, claim_C2_counter_conservation ⟨0⟩ [3, -2, 5] "c" sd0 rfl⟩

/-- Claim C3: for every sequence of `addValue` / `addValueAggregated`
updates made between two flushes (so starting from the zero (sum, count) a
flush leaves behind), the flush records exactly one sample into the global
rolling series — sum equal to the sum of the added values, count equal to
the number of plain samples plus the aggregated counts — at the flush
timestamp, and resets the local (sum, count) to zero. -/
theorem claim_C3_timeseries_conservation (t : TLTimeseries) (ops : List TSOp)
    (name : String) (now : Int) (sd : ServiceData)
    (hsum : t.sum_ = 0) (hcount : t.count_ = 0) :
    ((t.applyOps ops).aggregate name now sd).2.samples
        = (name, (ops.map TSOp.sumContrib).sum,
            (ops.map TSOp.countContrib).sum, now) :: sd.samples ∧
    ((t.applyOps ops).aggregate name now sd).1.sum_ = 0 ∧
    ((t.applyOps ops).aggregate name now sd).1.count_ = 0 := by
  have h := TLTimeseries.applyOps_fields ops t
  refine ⟨?_, rfl, rfl⟩
  simp [TLTimeseries.aggregate, ServiceData.recordTimeSeriesSample,
    h.1, h.2, hsum, hcount]

/-- Witness for C3 at a concrete update sequence. -/
theorem claim_C3_timeseries_conservation_witness :
    (⟨0, 0⟩ : TLTimeseries).sum_ = 0 ∧ (⟨0, 0⟩ : TLTimeseries).count_ = 0 ∧
    (((⟨0, 0⟩ : TLTimeseries).applyOps
          [TSOp.add 10, TSOp.add 20, TSOp.addAgg 30 4]).aggregate "t" 7 sd0).2.samples
        = ("t", ([TSOp.add 10, TSOp.add 20, TSOp.addAgg 30 4].map TSOp.sumContrib).sum,
            ([TSOp.add 10, TSOp.add 20, TSOp.addAgg 30 4].map TSOp.countContrib).sum, 7)
          :: sd0.samples :=
  ⟨rfl, rfl,
    (claim_C3_timeseries_conservation ⟨0, 0⟩
      [TSOp.add 10, TSOp.add 20, TSOp.addAgg 30 4] "t" 7 sd0 rfl rfl).1⟩

/-- Claim C8: for a freshly constructed or just-flushed time-series stat,
after any sequence of `addValue` and `addValueAggregated` updates, the
`sum()` accessor returns the sum of all added values and the `count()`
accessor returns the number of `addValue` calls plus the sum of the
explicit aggregated counts; the accessors are reads and leave the local
state unchanged. -/
theorem claim_C8_timeseries_accessors (t : TLTimeseries) (ops : List TSOp)
    (hsum : t.sum_ = 0) (hcount : t.count_ = 0) :
    (t.applyOps ops).sum = (ops.map TSOp.sumContrib).sum ∧
    (t.applyOps ops).count = (ops.map TSOp.countContrib).sum := by
  have h := TLTimeseries.applyOps_fields ops t
  constructor
  · rw [TLTimeseries.sum, h.1, hsum, zero_add]
  · rw [TLTimeseries.count, h.2, hcount, zero_add]

/-- Witness for C8 at a concrete update sequence. -/
theorem claim_C8_timeseries_accessors_witness :
    (⟨0, 0⟩ : TLTimeseries).sum_ = 0 ∧ (⟨0, 0⟩ : TLTimeseries).count_ = 0 ∧
    ((⟨0, 0⟩ : TLTimeseries).applyOps [TSOp.addAgg 6 2, TSOp.add 5]).sum
        = ([TSOp.addAgg 6 2, TSOp.add 5].map TSOp.sumContrib).sum ∧
    ((⟨0, 0⟩ : TLTimeseries).applyOps [TSOp.addAgg 6 2, TSOp.add 5]).count
        = ([TSOp.addAgg 6 2, TSOp.add 5].map TSOp.countContrib).sum :=
  ⟨rfl, rfl,
    claim_C8_timeseries_accessors ⟨0, 0⟩ [TSOp.addAgg 6 2, TSOp.add 5] rfl rfl⟩

/-- Claim C4: a histogram flush with the dirty flag clear performs no
global interaction (so a second flush with no intervening update is a
no-op); a flush when dirty adds each local bucket count to the same global
bucket, clears every local bucket and clears the dirty flag; `addValue`
and `addRepeatedValue` place the sample(s) in the bucket the value falls
into, leave other buckets unchanged, and set the dirty flag. -/
theorem claim_C4_histogram_flush (h : TLHistogram) (name : String)
    (sd : ServiceData) (v n : Int) (i : Nat) :
    (h.dirty_ = false → h.aggregate name sd = (h, sd)) ∧
    (h.dirty_ = true →
      ((h.aggregate name sd).2.histBuckets name i
          = sd.histBuckets name i + h.buckets i ∧
        (h.aggregate name sd).1.buckets i = 0 ∧
        (h.aggregate name sd).1.dirty_ = false)) ∧
    ((h.aggregate name sd).1.aggregate name (h.aggregate name sd).2
        = ((h.aggregate name sd).1, (h.aggregate name sd).2)) ∧
    ((h.addValue v).buckets (h.getBucketIdx v)
        = h.buckets (h.getBucketIdx v) + 1 ∧
      (i ≠ h.getBucketIdx v → (h.addValue v).buckets i = h.buckets i) ∧
      (h.addValue v).dirty_ = true) ∧
    ((h.addRepeatedValue v n).buckets (h.getBucketIdx v)
        = h.buckets (h.getBucketIdx v) + n ∧
      (i ≠ h.getBucketIdx v → (h.addRepeatedValue v n).buckets i = h.buckets i) ∧
      (h.addRepeatedValue v n).dirty_ = true) := by
  refine ⟨?_, ?_, ?_, ⟨?_, ?_, ?_⟩, ⟨?_, ?_, ?_⟩⟩
  · intro hd; simp [TLHistogram.aggregate, hd]
  · intro hd; refine ⟨?_, ?_, ?_⟩ <;> simp [TLHistogram.aggregate, hd]
  · cases hd : h.dirty_ <;> simp [TLHistogram.aggregate, hd]
  · simp [TLHistogram.addValue, updNat]
  · intro hi; simp [TLHistogram.addValue, updNat, hi]
  · rfl
  · simp [TLHistogram.addRepeatedValue, updNat]
  · intro hi; simp [TLHistogram.addRepeatedValue, updNat, hi]
  · rfl

/-- A small concrete histogram for the C4 witness: bucket width 10 over
[0, 100), all buckets empty, dirty flag set. -/
def hist0 : TLHistogram :=
  { bucketWidth := 10, min_ := 0, max_ := 100,
    buckets := fun _ => 0, dirty_ := true }

/-- Witness for C4 at a concrete dirty histogram and bucket. -/
theorem claim_C4_histogram_flush_witness :
    hist0.dirty_ = true ∧
    ((hist0.aggregate "h" sd0).2.histBuckets "h" 3
        = sd0.histBuckets "h" 3 + hist0.buckets 3 ∧
      (hist0.aggregate "h" sd0).1.buckets 3 = 0 ∧
      (hist0.aggregate "h" sd0).1.dirty_ = false) :=
  ⟨rfl, (claim_C4_histogram_flush hist0 "h" sd0 25 2 3).2.1 rfl⟩

/-- Pointwise update of a Nat-keyed name table. -/
def updName (f : Nat → String) (k : Nat) (v : String) : Nat → String :=
  fun k2 => if k2 = k then v else f k2

/-- A container of counter stats together with the global store, for the
lifecycle and move claims.  Stat objects are identified by Nat ids:
`tlStats_` is the container's registry of currently-registered ids (the
`std::unordered_set<TLStatT*> tlStats_` member), `value` gives each
object's local delta and `name` its name. -/
structure CounterWorld where
  tlStats_ : List Nat
  value : Nat → Int
  name : Nat → String
  sd : ServiceData

/-- Modelled from the spec: `ThreadLocalStatsT::registerStat` (body not
under src/) inserts the stat into the registry under the registry guard
(spec section 4.2). -/
def CounterWorld.registerStat (w : CounterWorld) (i : Nat) : CounterWorld :=
  { w with tlStats_ := i :: w.tlStats_ }

/-- Modelled from the spec: `ThreadLocalStatsT::unregisterStat` (body not
under src/) removes the stat from the registry under the registry guard
(spec section 4.2). -/
def CounterWorld.unregisterStat (w : CounterWorld) (i : Nat) : CounterWorld :=
  { w with tlStats_ := w.tlStats_.filter (fun j => decide (j ≠ i)) }

/-- `TLCounterT::incrementValue` seen at world level: its body is
`value_.increment(amount)` — it touches only the object's local delta;
neither the registry nor the global store appears in it. -/
def CounterWorld.incrementValue (w : CounterWorld) (i : Nat) (amount : Int) :
    CounterWorld :=
  { w with value := updNat w.value i (w.value i + amount) }

/-- Modelled from the spec: flushing one registered counter during the
container's `aggregate()` sweep adds its delta to the global counter of
its name and resets the delta to 0 (spec section 4.4). -/
def CounterWorld.flushOne (w : CounterWorld) (i : Nat) : CounterWorld :=
  { w with
    sd := w.sd.addToCounter (w.name i) (w.value i),
    value := updNat w.value i 0 }

/-- Modelled from the spec: `ThreadLocalStatsT::aggregate` (body not under
src/) takes a snapshot of the registry under the registry guard and
flushes every registered stat (spec section 4.2). -/
def CounterWorld.aggregate (w : CounterWorld) : CounterWorld :=
  w.tlStats_.foldl CounterWorld.flushOne w

/-- Modelled from the spec: `TLCounterT`'s move constructor (body not under
src/).  Per the source doc comments on `TLStatT(SubclassMove, ...)` and
`finishMove`, and spec section 4.3: the source is unregistered, flushing
nothing; the destination adopts the source's name and its
accumulated-but-unflushed delta is relocated (the source keeps none of
it); `finishMove` then registers the destination with the source's former
container. -/
def CounterWorld.moveConstructCounter (w : CounterWorld) (dst src : Nat) :
    CounterWorld :=
  let w1 := w.unregisterStat src
  let w2 := { w1 with
    name := updName w1.name dst (w1.name src),
    value := updNat (updNat w1.value dst (w1.value src)) src 0 }
  w2.registerStat dst

/-- Claim C9: `incrementValue()` with no argument adds exactly 1 to the
local delta (the amount parameter defaults to 1), and `incrementValue`
never touches the global store or the container's registry, whatever the
amount. -/
theorem claim_C9_incrementValue_default_local (c : TLCounter)
    (w : CounterWorld) (i : Nat) (amount : Int) :
    c.incrementValue.value_ = c.value_ + 1 ∧
    (w.incrementValue i amount).sd = w.sd ∧
    (w.incrementValue i amount).tlStats_ = w.tlStats_ :=
  ⟨rfl, rfl, rfl⟩

/-- Claim C5: move construction relocates, rather than flushes, the
source's unflushed delta.  If the container's registry holds exactly the
source counter with unflushed delta d, then after move-constructing a
destination from it, the source is unregistered, the destination is
registered and has adopted the source's name, and one `aggregate()` sweep
adds exactly d (not 0, not 2d) to the global counter of that name. -/
theorem claim_C5_move_construction (w : CounterWorld) (dst src : Nat)
    (hne : dst ≠ src) (hreg : w.tlStats_ = [src]) :
    src ∉ (w.moveConstructCounter dst src).tlStats_ ∧
    dst ∈ (w.moveConstructCounter dst src).tlStats_ ∧
    (w.moveConstructCounter dst src).name dst = w.name src ∧
    ((w.moveConstructCounter dst src).aggregate).sd.counters (w.name src)
        = w.sd.counters (w.name src) + w.value src := by
  have hname : (w.moveConstructCounter dst src).name dst = w.name src := by
    simp [CounterWorld.moveConstructCounter, CounterWorld.unregisterStat,
      CounterWorld.registerStat, updName]
  refine ⟨?_, ?_, hname, ?_⟩
  · simp [CounterWorld.moveConstructCounter, CounterWorld.unregisterStat,
      CounterWorld.registerStat, hreg, hne, Ne.symm hne]
  · simp [CounterWorld.moveConstructCounter, CounterWorld.unregisterStat,
      CounterWorld.registerStat]
  · have hlist : (w.moveConstructCounter dst src).tlStats_ = [dst] := by
      simp [CounterWorld.moveConstructCounter, CounterWorld.unregisterStat,
        CounterWorld.registerStat, hreg]
    rw [CounterWorld.aggregate, hlist]
    simp [CounterWorld.flushOne, CounterWorld.moveConstructCounter,
      CounterWorld.unregisterStat, CounterWorld.registerStat,
      ServiceData.addToCounter, upd, updNat, updName, hne, Ne.symm hne]

/-- A concrete world for the C5 witness: the registry holds exactly stat 1
(named "reqs", unflushed delta 42); stat 0 will be the destination. -/
def moveWorld0 : CounterWorld :=
  { tlStats_ := [1],
    value := fun j => if j = 1 then 42 else 0,
    name := fun _ => "reqs",
    sd := sd0 }

/-- Witness for C5 at a concrete world. -/
theorem claim_C5_move_construction_witness :
    (0 ≠ 1 ∧ moveWorld0.tlStats_ = [1]) ∧
    (1 ∉ (moveWorld0.moveConstructCounter 0 1).tlStats_ ∧
      0 ∈ (moveWorld0.moveConstructCounter 0 1).tlStats_ ∧
      (moveWorld0.moveConstructCounter 0 1).name 0 = moveWorld0.name 1 ∧
      ((moveWorld0.moveConstructCounter 0 1).aggregate).sd.counters (moveWorld0.name 1)
          = moveWorld0.sd.counters (moveWorld0.name 1) + moveWorld0.value 1) :=
  ⟨⟨by decide, rfl⟩,
    claim_C5_move_construction moveWorld0 0 1 (by decide) rfl⟩

/-- Modelled from the spec and the source doc comment on
`TLStatT::moveAssignment` (body not under src/): the sequence of world
states a move assignment passes through, in order — the initial state;
after aggregating the destination's data and unregistering it; after
aggregating the source's data and unregistering it; after transferring
contents (the destination adopts the source's name and remaining delta);
after registering the destination with its new container, a step that may
fail (`regOk = false` leaves the destination unregistered).  A self-move
returns immediately. -/
def CounterWorld.moveAssignmentTrace (w : CounterWorld) (dst src : Nat)
    (regOk : Bool) : List CounterWorld :=
  if dst = src then [w]
  else
    let w1 := (w.flushOne dst).unregisterStat dst
    let w2 := (w1.flushOne src).unregisterStat src
    let w3 := { w2 with
      name := updName w2.name dst (w2.name src),
      value := updNat (updNat w2.value dst (w2.value src)) src 0 }
    let w4 := if regOk then w3.registerStat dst else w3
    [w, w1, w2, w3, w4]

/-- The final state of a move assignment: the last element of its trace. -/
def CounterWorld.moveAssignmentFinal (w : CounterWorld) (dst src : Nat)
    (regOk : Bool) : CounterWorld :=
  ((w.moveAssignmentTrace dst src regOk).getLast?).getD w

/-- Claim C6: move assignment flushes and unregisters the destination,
then flushes and unregisters the source, then transfers state and
re-registers the destination; provided the two stats start with distinct
global-store identities (names), no state in the sequence has both stats
registered while claiming the same name; and if the final registration
step fails, the destination (and the source) are left unregistered rather
than torn. -/
theorem claim_C6_move_assignment (w : CounterWorld) (dst src : Nat)
    (regOk : Bool) (hid : w.name dst ≠ w.name src) :
    (∀ w2 ∈ w.moveAssignmentTrace dst src regOk,
      ¬(dst ∈ w2.tlStats_ ∧ src ∈ w2.tlStats_ ∧ w2.name dst = w2.name src)) ∧
    (regOk = false →
      dst ∉ (w.moveAssignmentFinal dst src regOk).tlStats_ ∧
      src ∉ (w.moveAssignmentFinal dst src regOk).tlStats_) := by
  have hne : dst ≠ src := fun hdsrc => hid (by rw [hdsrc])
  constructor
  · intro w2 hw2
    rw [CounterWorld.moveAssignmentTrace, if_neg hne] at hw2
    simp only [List.mem_cons, List.not_mem_nil, or_false] at hw2
    rcases hw2 with h2 | h2 | h2 | h2 | h2
    · subst h2; rintro ⟨-, -, hnm⟩; exact hid hnm
    · subst h2
      rintro ⟨hdm, -, -⟩
      simp [CounterWorld.unregisterStat, CounterWorld.flushOne,
        List.mem_filter] at hdm
    · subst h2
      rintro ⟨hdm, -, -⟩
      simp [CounterWorld.unregisterStat, CounterWorld.flushOne,
        List.mem_filter] at hdm
    · subst h2
      rintro ⟨hdm, -, -⟩
      simp [CounterWorld.unregisterStat, CounterWorld.flushOne,
        List.mem_filter] at hdm
    · subst h2
      cases regOk with
      | false =>
        simp only [if_neg (by decide : ¬(false = true))] at *
        rintro ⟨hdm, -, -⟩
        simp [CounterWorld.unregisterStat, CounterWorld.flushOne,
          List.mem_filter] at hdm
      | true =>
        rintro ⟨-, hsm, -⟩
        simp [CounterWorld.registerStat, CounterWorld.unregisterStat,
          CounterWorld.flushOne, List.mem_cons, List.mem_filter,
          Ne.symm hne] at hsm
  · rintro rfl
    constructor
    · simp [CounterWorld.moveAssignmentFinal, CounterWorld.moveAssignmentTrace,
        hne, CounterWorld.unregisterStat, CounterWorld.flushOne, List.mem_filter]
    · simp [CounterWorld.moveAssignmentFinal, CounterWorld.moveAssignmentTrace,
        hne, CounterWorld.unregisterStat, CounterWorld.flushOne, List.mem_filter]

/-- A concrete world for the C6 witness: stats 0 ("a", delta 7) and 1
("b", delta 9), both registered. -/
def maWorld0 : CounterWorld :=
  { tlStats_ := [0, 1],
    value := fun j => if j = 0 then 7 else 9,
    name := fun j => if j = 0 then "a" else "b",
    sd := sd0 }

/-- Witness for C6 at a concrete world, with the registration step failing. -/
theorem claim_C6_move_assignment_witness :
    maWorld0.name 0 ≠ maWorld0.name 1 ∧
    (0 ∉ (maWorld0.moveAssignmentFinal 0 1 false).tlStats_ ∧
      1 ∉ (maWorld0.moveAssignmentFinal 0 1 false).tlStats_) :=
  ⟨by decide, (claim_C6_move_assignment maWorld0 0 1 false (by decide)).2 rfl⟩

/-- A registration event on a container's registry: `postInit i` is the
terminal construction step of stat `i` (registers it), `preDestroy i` the
first destruction step (unregisters it).  Modelled from the spec: the
bodies of `TLStatT::postInit` / `preDestroy` are not under src/; per their
source doc comments, `postInit` registers the stat with its container and
`preDestroy` unregisters it. -/
inductive LifeEv
  | postInit (i : Nat)
  | preDestroy (i : Nat)

/-- Effect of one lifecycle event on the container's registry. -/
def applyLifeEv (r : List Nat) : LifeEv → List Nat
  | .postInit i => i :: r
  | .preDestroy i => r.filter (fun j => decide (j ≠ i))

/-- Run a sequence of lifecycle events over a registry. -/
def runLife (r : List Nat) (evs : List LifeEv) : List Nat :=
  evs.foldl applyLifeEv r

/-- Whether an `aggregate()` sweep over registry `r` flushes stat `i`: the
sweep flushes exactly the currently-registered stats (spec section 4.2). -/
def sweepFlushes (r : List Nat) (i : Nat) : Prop := i ∈ r

instance (r : List Nat) (i : Nat) : Decidable (sweepFlushes r i) :=
  inferInstanceAs (Decidable (i ∈ r))

/-- Whether a lifecycle event concerns stat `s`. -/
def LifeEv.touches (e : LifeEv) (s : Nat) : Bool :=
  match e with
  | .postInit i => i == s
  | .preDestroy i => i == s

theorem runLife_untouched (s : Nat) (evs : List LifeEv)
    (h : ∀ e ∈ evs, e.touches s = false) :
    ∀ r : List Nat, (sweepFlushes (runLife r evs) s ↔ sweepFlushes r s) := by
  induction evs with
  | nil => intro r; simp [runLife, sweepFlushes]
  | cons e rest ih =>
    intro r
    have he : e.touches s = false := h e (List.mem_cons_self e rest)
    have hrest : ∀ e2 ∈ rest, e2.touches s = false := fun e2 h2 =>
      h e2 (List.mem_cons_of_mem e h2)
    have step : sweepFlushes (applyLifeEv r e) s ↔ sweepFlushes r s := by
      cases e with
      | postInit i =>
        simp only [LifeEv.touches, beq_eq_false_iff_ne] at he
        simp [applyLifeEv, sweepFlushes, List.mem_cons, Ne.symm he]
      | preDestroy i =>
        simp only [LifeEv.touches, beq_eq_false_iff_ne] at he
        simp [applyLifeEv, sweepFlushes, List.mem_filter, Ne.symm he]
    calc sweepFlushes (runLife r (e :: rest)) s
        ↔ sweepFlushes (applyLifeEv r e) s := ih hrest (applyLifeEv r e)
      _ ↔ sweepFlushes r s := step

/-- Claim C1: over any interleaving of other stats' lifecycle events, stat
`s` is absent from the effect of every `aggregate()` sweep taken before its
`postInit` (terminal construction step) and after its `preDestroy` (first
destruction step), and is present in the registry — hence flushed by the
sweep — at every point strictly between the two. -/
theorem claim_C1_registration_visibility (s : Nat) (r0 : List Nat)
    (pre mid post : List LifeEv)
    (hpre : ∀ e ∈ pre, e.touches s = false)
    (hmid : ∀ e ∈ mid, e.touches s = false)
    (hpost : ∀ e ∈ post, e.touches s = false)
    (h0 : ¬ sweepFlushes r0 s) :
    (∀ p q, pre = p ++ q → ¬ sweepFlushes (runLife r0 p) s) ∧
    (∀ p q, mid = p ++ q →
      sweepFlushes (runLife r0 (pre ++ LifeEv.postInit s :: p)) s) ∧
    (∀ p q, post = p ++ q →
      ¬ sweepFlushes
        (runLife r0
          (pre ++ LifeEv.postInit s :: (mid ++ LifeEv.preDestroy s :: p))) s) := by
  have happend : ∀ (r : List Nat) (a b : List LifeEv),
      runLife r (a ++ b) = runLife (runLife r a) b := by
    intro r a b; simp [runLife, List.foldl_append]
  refine ⟨?_, ?_, ?_⟩
  · intro p q hpq
    have hp : ∀ e ∈ p, e.touches s = false := fun e he =>
      hpre e (hpq ▸ List.mem_append_left q he)
    exact fun hmem => h0 ((runLife_untouched s p hp r0).mp hmem)
  · intro p q hpq
    have hp : ∀ e ∈ p, e.touches s = false := fun e he =>
      hmid e (hpq ▸ List.mem_append_left q he)
    have : runLife r0 (pre ++ LifeEv.postInit s :: p)
        = runLife (applyLifeEv (runLife r0 pre) (LifeEv.postInit s)) p := by
      rw [happend]; rfl
    rw [this]
    refine (runLife_untouched s p hp _).mpr ?_
    simp [applyLifeEv, sweepFlushes]
  · intro p q hpq
    have hp : ∀ e ∈ p, e.touches s = false := fun e he =>
      hpost e (hpq ▸ List.mem_append_left q he)
    have hsplit : runLife r0
        (pre ++ LifeEv.postInit s :: (mid ++ LifeEv.preDestroy s :: p))
        = runLife
            (applyLifeEv
              (runLife (applyLifeEv (runLife r0 pre) (LifeEv.postInit s)) mid)
              (LifeEv.preDestroy s)) p := by
      rw [happend]
      show runLife (runLife r0 pre)
          (LifeEv.postInit s :: (mid ++ LifeEv.preDestroy s :: p)) = _
      rw [runLife, List.foldl_cons, ← runLife, happend]
      rfl
    rw [hsplit]
    intro hmem
    have hmem2 := (runLife_untouched s p hp _).mp hmem
    simp [applyLifeEv, sweepFlushes, List.mem_filter] at hmem2

/-- Witness for C1: a concrete trace around stat 0's lifetime, with an
unrelated stat 1 registering and unregistering alongside. -/
theorem claim_C1_registration_visibility_witness :
    ¬ sweepFlushes (runLife [5] [LifeEv.postInit 1]) 0 ∧
    sweepFlushes
      (runLife [5] ([LifeEv.postInit 1] ++ LifeEv.postInit 0 :: [LifeEv.preDestroy 1])) 0 ∧
    ¬ sweepFlushes
      (runLife [5]
        ([LifeEv.postInit 1] ++ LifeEv.postInit 0 ::
          ([LifeEv.preDestroy 1] ++ LifeEv.preDestroy 0 :: [LifeEv.postInit 2]))) 0 := by
  have h := claim_C1_registration_visibility 0 [5]
    [LifeEv.postInit 1] [LifeEv.preDestroy 1] [LifeEv.postInit 2]
    (by decide) (by decide) (by decide) (by decide)
  exact ⟨h.1 [LifeEv.postInit 1] [] rfl, h.2.1 [LifeEv.preDestroy 1] [] rfl,
    h.2.2 [LifeEv.postInit 2] [] rfl⟩

/-- The base-class identity state of a stat (`TLStatT`): the
container-reference half of the combined `containerAndLock_` cell (a
container id, or none once detached) and the stat's name. -/
structure TLStatBase where
  containerAndLock_ : Option Nat
  name_ : String

/-- From the source (`TLStatT::getContainer`): read the container pointer
out of the combined cell. -/
def TLStatBase.getContainer (s : TLStatBase) : Option Nat :=
  s.containerAndLock_

/-- Modelled from the spec: the body of `TLStatT::clearContainer` is not
under src/.  Per its source doc comment, it resets the pointer to the
containing `ThreadLocalStatsT` (called when the container is destroyed
before the stat) and returns the container it was registered with. -/
def TLStatBase.clearContainer (s : TLStatBase) : Option Nat × TLStatBase :=
  (s.containerAndLock_, { s with containerAndLock_ := none })

/-- Modelled from the spec: the body of `TLStatT::checkContainer` is not
under src/.  Per its source doc comment, it verifies that the container is
non-null and returns it; if the container is null, an exception with the
specified message is thrown — a synchronously reported usage error. -/
def TLStatBase.checkContainer (s : TLStatBase) (errorMsg : String) :
    Except String Nat :=
  match s.containerAndLock_ with
  | none => Except.error errorMsg
  | some c => Except.ok c

/-- From the source (`TLHistogramT::getHistogramMap`): resolve the current
container via `checkContainer` and return its histogram map (modelled by
the container id); every percentile / export-type operation goes through
this. -/
def TLStatBase.getHistogramMap (s : TLStatBase) (errorMsg : String) :
    Except String Nat :=
  s.checkContainer errorMsg

/-- Modelled from the spec: the `ThreadLocalStatsT` destructor (body not
under src/) detaches, under the registry lock, the back-reference of every
stat still pointing at container `cid` (spec section 3: destruction first
sets every still-registered stat's container reference to "no
container"). -/
def destroyContainer (cid : Nat) (stats : List TLStatBase) : List TLStatBase :=
  stats.map fun s =>
    if s.containerAndLock_ = some cid then { s with containerAndLock_ := none }
    else s

/-- Claim C7: destroying a container detaches the back-reference of every
stat attached to it; afterwards a container-requiring operation on such a
stat (a histogram export resolves the container through
`getHistogramMap`/`checkContainer`) finds no container set and fails with
the synchronously reported usage error instead of dereferencing freed
memory. -/
theorem claim_C7_access_after_detach (cid : Nat) (stats : List TLStatBase)
    (i : Nat) (hatt : stats[i]?.map TLStatBase.getContainer = some (some cid)) :
    ∀ errorMsg : String,
      (destroyContainer cid stats)[i]?.map TLStatBase.getContainer
          = some none ∧
      (destroyContainer cid stats)[i]?.map
          (fun s => s.getHistogramMap errorMsg)
        = some (Except.error errorMsg) := by
  intro errorMsg
  cases hs : stats[i]? with
  | none => rw [hs] at hatt; exact absurd hatt (by simp)
  | some s =>
    rw [hs] at hatt
    have hc : s.containerAndLock_ = some cid := by
      simpa [TLStatBase.getContainer] using hatt
    constructor
    · simp [destroyContainer, List.getElem?_map, hs, hc, TLStatBase.getContainer]
    · simp [destroyContainer, List.getElem?_map, hs, hc,
        TLStatBase.getHistogramMap, TLStatBase.checkContainer]

/-- Witness for C7: a two-stat list in which stat 0 is attached to
container 3 and stat 1 to container 4; destroying container 3 detaches
stat 0 and makes its export path fail. -/
theorem claim_C7_access_after_detach_witness :
    ([⟨some 3, "a"⟩, ⟨some 4, "b"⟩] : List TLStatBase)[0]?.map
        TLStatBase.getContainer = some (some 3) ∧
    ((destroyContainer 3 [⟨some 3, "a"⟩, ⟨some 4, "b"⟩])[0]?.map
          TLStatBase.getContainer = some none ∧
      (destroyContainer 3 [⟨some 3, "a"⟩, ⟨some 4, "b"⟩])[0]?.map
          (fun s => s.getHistogramMap "exporting a percentile")
        = some (Except.error "exporting a percentile")) :=
  ⟨rfl, claim_C7_access_after_detach 3 [⟨some 3, "a"⟩, ⟨some 4, "b"⟩] 0 rfl
    "exporting a percentile"⟩

/-- Claim C10: `clearContainer` returns the container the stat was
registered with at the time of the call; afterwards `getContainer` on the
stat returns null, so every subsequent container-requiring operation takes
the usage-error path of `checkContainer`. -/
theorem claim_C10_clearContainer (s : TLStatBase) (errorMsg : String) :
    s.clearContainer.1 = s.getContainer ∧
    s.clearContainer.2.getContainer = none ∧
    s.clearContainer.2.checkContainer errorMsg = Except.error errorMsg :=
  ⟨rfl, rfl, rfl⟩

end FB303
